import Mathlib

/-!
# Verification of the CPU/Memory stress tester (`src/cpu.py`)

Shallow embedding of the process supervisor, orchestrator, workload and
dashboard logic of `cpu.py`.  OS-level nondeterminism (process liveness,
exceptions thrown by `terminate`/`kill`/`start`, the number of loop ticks,
whether the monitoring loop ends normally or by an exception) is supplied
by explicit environment records; the control flow itself is translated
directly from the Python source.
-/

set_option linter.unusedVariables false

namespace CpuStress

/-- Which workload function a spawned process runs
(`cpu_burn` or `memory_burn` in `cpu.py`). -/
inductive Workload
  | cpuBurn
  | memoryBurn
  deriving DecidableEq, Repr

/-- Environment-chosen dynamic behaviour of one OS process handle, observed
during `cleanup_processes`:
* `alive`: result of the `p.is_alive()` guard (cpu.py line 111);
* `aliveAfterJoin`: result of the second `p.is_alive()` after
  `p.terminate(); p.join(timeout=2)` (line 115);
* `exnAt`: if `some i`, the `i`-th primitive call inside the per-process
  `try` block raises an exception (caught at line 118); `none` means the
  block runs without exception. -/
structure ProcDyn where
  alive : Bool
  aliveAfterJoin : Bool
  exnAt : Option Nat
  deriving DecidableEq, Repr

/-- One tracked worker process: the workload function and argument it was
started with (`multiprocessing.Process(target=..., args=(...,))`), plus its
environment-chosen dynamic behaviour. -/
structure Proc where
  target : Workload
  arg : Nat
  dyn : ProcDyn
  deriving DecidableEq, Repr

/-- The mutable state of a `CPUStressTester` instance relevant to the claims:
the two tracked process lists and the `running` flag (cpu.py lines 72-74). -/
structure TesterState where
  processes : List Proc
  memory_processes : List Proc
  running : Bool
  deriving DecidableEq, Repr

/-- Fresh tester state as built by `CPUStressTester.__init__`. -/
def initTester : TesterState :=
  { processes := [], memory_processes := [], running := true }

/-- Primitive effects performed on one process handle during cleanup
(cpu.py lines 112-119). -/
inductive Action
  | terminate
  | joinTimeout2
  | kill
  | joinBlock
  | logError
  deriving DecidableEq, Repr

/-- The sequence of primitive calls the per-process `try` block of
`cleanup_processes` attempts for a live handle: `p.terminate()`,
`p.join(timeout=2)`, and — only if `p.is_alive()` is still true
afterwards — `p.kill()` followed by an unbounded `p.join()`. -/
def attemptedSteps (p : Proc) : List Action :=
  Action.terminate :: Action.joinTimeout2 ::
    (if p.dyn.aliveAfterJoin then [Action.kill, Action.joinBlock] else [])

/-- Effects actually performed on one handle by `cleanup_processes`
(cpu.py lines 110-119): handles that are not alive are skipped; for a live
handle the attempted steps run until the environment-chosen exception point
(if any), at which point the `except` clause logs the error and the loop
moves on to the next handle. -/
def cleanupOne (p : Proc) : List Action :=
  if p.dyn.alive then
    match p.dyn.exnAt with
    | some i =>
        if i < (attemptedSteps p).length then
          (attemptedSteps p).take i ++ [Action.logError]
        else attemptedSteps p
    | none => attemptedSteps p
  else []

/-- `CPUStressTester.cleanup_processes` (cpu.py lines 106-123):
iterates over `self.processes + self.memory_processes`, applying the
per-handle termination protocol to each, then unconditionally clears both
tracked lists.  Returns the new state and the per-handle effect traces. -/
def cleanup_processes (s : TesterState) : TesterState × List (List Action) :=
  let all_processes := s.processes ++ s.memory_processes
  ({ s with processes := [], memory_processes := [] },
   all_processes.map cleanupOne)

/-- Environment for process spawning: if `cpuFailAt = some k`, the `k`-th
(0-based) call to `p.start()` inside `stress_cpu` raises an exception, and
similarly `memFailAt` for `stress_memory`; `cpuDyn`/`memDyn` supply the
dynamic behaviour (liveness at cleanup time) of each successfully started
worker, indexed by its spawn position. -/
structure SpawnEnv where
  cpuFailAt : Option Nat
  memFailAt : Option Nat
  cpuDyn : Nat → ProcDyn
  memDyn : Nat → ProcDyn

/-- The `for _ in range(n)` spawn loop shared by `stress_cpu` and
`stress_memory` (cpu.py lines 209-212 and 223-226): at iteration `i` it
builds process `mk i`, starts it and appends it to the tracked list; if
`p.start()` raises at position `failAt` the loop stops there, having
appended only the processes started before the failure.  Returns the list
of appended processes and whether the loop ended in an exception. -/
def spawnLoop (mk : Nat → Proc) (failAt : Option Nat) :
    Nat → Nat → List Proc × Bool
  | _, 0 => ([], false)
  | i, n + 1 =>
    if failAt = some i then ([], true)
    else
      let r := spawnLoop mk failAt (i + 1) n
      (mk i :: r.1, r.2)

/-- `CPUStressTester.stress_cpu` (cpu.py lines 206-218): spawns `cores`
processes running `cpu_burn(intensity)`, appending each to
`self.processes`.  The `duration` parameter is accepted but never used by
the body.  On a spawn failure the exception is logged and re-raised
(`raise` at line 218); the workers appended before the failure stay
tracked.  Returns the new state and `.ok`/`.error` for normal return vs a
propagated exception. -/
def stress_cpu (env : SpawnEnv) (cores duration intensity : Nat)
    (s : TesterState) : TesterState × Except Unit Unit :=
  let r := spawnLoop (fun j => ⟨Workload.cpuBurn, intensity, env.cpuDyn j⟩)
    env.cpuFailAt 0 cores
  ({ s with processes := s.processes ++ r.1 },
   if r.2 then Except.error () else Except.ok ())

/-- `CPUStressTester.stress_memory` (cpu.py lines 220-232): spawns
`processes` workers running `memory_burn(size_mb)`, appending each to
`self.memory_processes`; on failure logs and re-raises, keeping the
already-started workers tracked. -/
def stress_memory (env : SpawnEnv) (processes size_mb : Nat)
    (s : TesterState) : TesterState × Except Unit Unit :=
  let r := spawnLoop (fun j => ⟨Workload.memoryBurn, size_mb, env.memDyn j⟩)
    env.memFailAt 0 processes
  ({ s with memory_processes := s.memory_processes ++ r.1 },
   if r.2 then Except.error () else Except.ok ())

/-- How the monitoring loop of `run_stress_test` (cpu.py lines 255-257)
ends, chosen by the environment:
* `completed`: the elapsed-time bound is reached with `self.running` true;
* `stoppedByFlag`: `self.running` became false, so the loop condition fails;
* `keyboardInterrupt`: a `KeyboardInterrupt` is raised during the loop;
* `otherExn`: some other exception is raised during the loop. -/
inductive LoopExit
  | completed
  | stoppedByFlag
  | keyboardInterrupt
  | otherExn
  deriving DecidableEq, Repr

/-- Environment for one call of `run_stress_test`: the spawn environment,
how the monitoring loop ends (relevant only when spawning succeeds), and
how many dashboard ticks the loop performs before ending. -/
structure RunEnv where
  spawn : SpawnEnv
  loopExit : LoopExit
  ticks : Nat

/-- Observable events of the orchestrator and the `__main__` block, used to
state which calls happen on which control path. -/
inductive Event
  | spawnCpuCall
  | spawnMemCall
  | tick
  | msgSuccess
  | msgInterrupted
  | msgError
  | cleanupCall
  deriving DecidableEq, Repr

/-- Classification of how the `try` block of `run_stress_test` ends:
normally, with a `KeyboardInterrupt`, or with another exception. -/
inductive TryOutcome
  | noExn
  | kbInterrupt
  | exn
  deriving DecidableEq, Repr

/-- The `try` block of `run_stress_test` (cpu.py lines 236-261):
`stress_cpu`, then `stress_memory` if `memory_processes > 0`, then the
monitoring loop, then the success message if `self.running` is still true.
A re-raised spawn exception or a loop exception aborts the block at that
point.  Returns the state, the events performed, and how the block ended. -/
def runBody (env : RunEnv)
    (cpu_cores duration intensity memory_processes memory_size : Nat)
    (s : TesterState) : TesterState × List Event × TryOutcome :=
  let rc := stress_cpu env.spawn cpu_cores duration intensity s
  match rc.2 with
  | Except.error _ => (rc.1, [Event.spawnCpuCall], TryOutcome.exn)
  | Except.ok _ =>
    let memEvents := if memory_processes > 0 then [Event.spawnMemCall] else []
    let rm := if memory_processes > 0 then
        stress_memory env.spawn memory_processes memory_size rc.1
      else (rc.1, Except.ok ())
    match rm.2 with
    | Except.error _ =>
        (rm.1, Event.spawnCpuCall :: memEvents, TryOutcome.exn)
    | Except.ok _ =>
      let tickEvents := List.replicate env.ticks Event.tick
      match env.loopExit with
      | LoopExit.completed =>
          (rm.1, Event.spawnCpuCall :: memEvents ++ tickEvents
            ++ [Event.msgSuccess], TryOutcome.noExn)
      | LoopExit.stoppedByFlag =>
          ({ rm.1 with running := false },
           Event.spawnCpuCall :: memEvents ++ tickEvents, TryOutcome.noExn)
      | LoopExit.keyboardInterrupt =>
          (rm.1, Event.spawnCpuCall :: memEvents ++ tickEvents,
           TryOutcome.kbInterrupt)
      | LoopExit.otherExn =>
          (rm.1, Event.spawnCpuCall :: memEvents ++ tickEvents,
           TryOutcome.exn)

/-- Events printed by the two `except` handlers of `run_stress_test`:
`KeyboardInterrupt` prints the interruption message (cpu.py line 264), any
other exception prints the error message (line 267), a normal end of the
`try` block prints nothing further. -/
def handlerEvents : TryOutcome → List Event
  | TryOutcome.noExn => []
  | TryOutcome.kbInterrupt => [Event.msgInterrupted]
  | TryOutcome.exn => [Event.msgError]

/-- `CPUStressTester.run_stress_test` (cpu.py lines 234-270): runs the
`try` block, handles `KeyboardInterrupt` (line 263) and any other
exception (line 266) by printing/logging a message, and in the `finally`
clause (line 269) always calls `cleanup_processes`.  Neither handler
re-raises, so the function always returns normally. -/
def run_stress_test (env : RunEnv)
    (cpu_cores duration intensity memory_processes memory_size : Nat)
    (s : TesterState) : TesterState × List Event :=
  let b := runBody env cpu_cores duration intensity memory_processes
    memory_size s
  let c := cleanup_processes b.1
  (c.1, b.2.1 ++ handlerEvents b.2.2 ++ [Event.cleanupCall])

/-- Parsed command-line arguments (cpu.py lines 295-306); `argparse` with
`type=int` admits negative values, so the numeric fields are integers. -/
structure Args where
  cores : Int
  time : Int
  intensity : Int
  memory_processes : Int
  memory_size : Int
  cpu_only : Bool
  deriving DecidableEq, Repr

/-- `validate_args` (cpu.py lines 273-290): raises `ValueError` with the
given message on the first violated bound, otherwise returns normally.
(The trailing warnings at lines 287-290 only print and are not modelled.) -/
def validate_args (args : Args) : Except String Unit :=
  if args.cores ≤ 0 then Except.error "Number of cores must be positive"
  else if args.time ≤ 0 then Except.error "Duration must be positive"
  else if args.intensity ≤ 0 then Except.error "Intensity must be positive"
  else if args.memory_processes < 0 then
    Except.error "Memory processes cannot be negative"
  else if args.memory_size ≤ 0 then
    Except.error "Memory size must be positive"
  else Except.ok ()

/-- Exceptions the environment can raise inside the legacy polling loop
(cpu.py lines 319-325), e.g. from `psutil.cpu_percent`. -/
inductive ExnKind
  | keyboardInterrupt
  | otherExn
  deriving DecidableEq, Repr

/-- Environment for one execution of the `__main__` block: the environment
of the `run_stress_test` call (advanced mode), plus, for legacy
`--cpu-only` mode, whether an exception is raised inside the legacy
polling loop and how many polling iterations run before that. -/
structure MainEnv where
  runEnv : RunEnv
  legacyLoopExn : Option ExnKind
  legacyTicks : Nat

/-- The `__main__` block (cpu.py lines 308-359), after successful argument
parsing: `validate_args`, then either the legacy `--cpu-only` path
(lines 312-328) or `run_stress_test` (lines 330-349), wrapped in handlers
that map `ValueError` to exit code 1, `KeyboardInterrupt` to exit code 0
and any other exception to exit code 1; falling off the end of the script
exits with code 0.  Returns the exit code and the event trace. -/
def mainProgram (env : MainEnv) (args : Args) : Nat × List Event :=
  match validate_args args with
  | Except.error _ => (1, [])
  | Except.ok _ =>
    if args.cpu_only then
      -- Legacy mode: stress_cpu, bare polling loop, then cleanup. The loop
      -- and the cleanup call are not protected by any try/finally, so an
      -- exception escapes straight to the top-level handlers.
      let rc := stress_cpu env.runEnv.spawn args.cores.toNat args.time.toNat
        args.intensity.toNat initTester
      match rc.2 with
      | Except.error _ => (1, [Event.spawnCpuCall])
      | Except.ok _ =>
        let tickEvents := List.replicate env.legacyTicks Event.tick
        match env.legacyLoopExn with
        | some ExnKind.keyboardInterrupt =>
            (0, Event.spawnCpuCall :: tickEvents)
        | some ExnKind.otherExn =>
            (1, Event.spawnCpuCall :: tickEvents)
        | none =>
            let c := cleanup_processes rc.1
            (0, Event.spawnCpuCall :: tickEvents ++ [Event.cleanupCall])
    else
      -- Advanced mode: run_stress_test handles KeyboardInterrupt and all
      -- other exceptions internally and always returns normally, so this
      -- path always reaches the end of the script.
      let r := run_stress_test env.runEnv args.cores.toNat args.time.toNat
        args.intensity.toNat args.memory_processes.toNat
        args.memory_size.toNat initTester
      (0, r.2)

/-- One outer cycle of `memory_burn` (cpu.py lines 33-52) acting on the
`data` list, with chunks identified by their allocation index (the random
bytes written into a chunk do not affect the list structure): append
`size_mb` fresh 1MB chunks, touch a sample of existing chunks (which
modifies bytes in place, not the list), then, if the chunk count exceeds
`size_mb * 2`, discard the oldest `size_mb` chunks (`data = data[size_mb:]`).
The state is the data list plus the allocation counter. -/
def memory_burn_cycle (size_mb : Nat) (st : List Nat × Nat) :
    List Nat × Nat :=
  let data := st.1 ++ List.range' st.2 size_mb
  let ctr := st.2 + size_mb
  if data.length > size_mb * 2 then (data.drop size_mb, ctr)
  else (data, ctr)

/-- The `data` list and allocation counter of `memory_burn` after `k`
complete outer cycles, starting from the empty list (`data = []`,
cpu.py line 30). -/
def memory_burn_run (size_mb : Nat) : Nat → List Nat × Nat
  | 0 => ([], 0)
  | k + 1 => memory_burn_cycle size_mb (memory_burn_run size_mb k)

/-- One segment of a dashboard usage bar: `█` (filled) or `░` (empty). -/
inductive Seg
  | filled
  | emptySeg
  deriving DecidableEq, Repr

/-- Python `int()` on a rational: truncation toward zero. -/
def pyInt (q : ℚ) : Int :=
  if q < 0 then -(Int.floor (-q)) else Int.floor q

/-- The per-core usage bar of `display_dashboard` (cpu.py lines 174-175):
`bar_length = int(usage / 5)`, then `bar_length` filled segments followed
by `20 - bar_length` empty segments.  Python string repetition with a
negative count yields the empty string, which `Int.toNat` mirrors.  The
memory bar at lines 183-184 uses the same formula. -/
def dashboard_bar (usage : ℚ) : List Seg :=
  let bar_length := pyInt (usage / 5)
  List.replicate bar_length.toNat Seg.filled
    ++ List.replicate (20 - bar_length).toNat Seg.emptySeg

/-! ## Helper lemmas -/

/-- Closed form of the spawn loop when no `start()` call fails. -/
theorem spawnLoop_none (mk : Nat → Proc) :
    ∀ n i, spawnLoop mk none i n = ((List.range' i n).map mk, false)
  | 0, i => by simp [spawnLoop]
  | n + 1, i => by
    simp [spawnLoop, List.range'_succ, spawnLoop_none mk n (i + 1)]

/-- Closed form of the spawn loop when the `start()` call at position `k`
fails: only the processes at positions before `k` are appended. -/
theorem spawnLoop_some (mk : Nat → Proc) (k : Nat) :
    ∀ n i, spawnLoop mk (some k) i n =
      if i ≤ k ∧ k < i + n then ((List.range' i (k - i)).map mk, true)
      else ((List.range' i n).map mk, false)
  | 0, i => by
    rw [if_neg (by omega)]
    simp [spawnLoop]
  | n + 1, i => by
    by_cases hk : k = i
    · subst hk
      rw [if_pos (show k ≤ k ∧ k < k + (n + 1) by omega)]
      simp [spawnLoop]
    · simp only [spawnLoop, Option.some.injEq, if_neg hk,
        spawnLoop_some mk k n (i + 1)]
      by_cases h2 : i + 1 ≤ k ∧ k < i + 1 + n
      · rw [if_pos h2, if_pos (by omega)]
        have hki : k - i = (k - (i + 1)) + 1 := by omega
        rw [hki, List.range'_succ]
        simp
      · rw [if_neg h2, if_neg (by omega), List.range'_succ]
        simp

/-- A forceful kill is only ever attempted on a handle that was still alive
after the graceful terminate and the 2-second join. -/
theorem kill_mem_attemptedSteps {p : Proc}
    (h : Action.kill ∈ attemptedSteps p) : p.dyn.aliveAfterJoin = true := by
  by_contra hn
  simp [attemptedSteps, hn] at h

/-- The events emitted by the `try` block of `run_stress_test` never include
a cleanup call: cleanup happens only in the `finally` clause. -/
theorem runBody_no_cleanup (env : RunEnv)
    (cpu_cores duration intensity memory_processes memory_size : Nat)
    (s : TesterState) :
    Event.cleanupCall ∉
      (runBody env cpu_cores duration intensity memory_processes
        memory_size s).2.1 := by
  unfold runBody
  rcases hc : (stress_cpu env.spawn cpu_cores duration intensity s).2 with u | u
  · simp [hc]
  · simp only [hc]
    rcases hm : (if memory_processes > 0 then
        stress_memory env.spawn memory_processes memory_size
          (stress_cpu env.spawn cpu_cores duration intensity s).1
      else ((stress_cpu env.spawn cpu_cores duration intensity s).1,
        Except.ok ())).2 with v | v
    · simp only [hm]
      split <;> simp
    · simp only [hm]
      rcases env.loopExit <;> simp [List.mem_replicate]

/-- The exception handlers of `run_stress_test` never perform a cleanup
call themselves. -/
theorem handlerEvents_no_cleanup (o : TryOutcome) :
    Event.cleanupCall ∉ handlerEvents o := by
  cases o <;> simp [handlerEvents]

/-- One `memory_burn` cycle preserves the bound of `2 * size_mb` retained
chunks. -/
theorem memory_burn_cycle_length (size_mb : Nat) (st : List Nat × Nat)
    (h : st.1.length ≤ 2 * size_mb) :
    (memory_burn_cycle size_mb st).1.length ≤ 2 * size_mb := by
  simp only [memory_burn_cycle]
  split <;> rename_i hc <;>
    simp only [List.length_drop, List.length_append, List.length_range']
      at hc ⊢ <;> omega

/-! ## Claim theorems -/

/-- Claim C10: the spawning behaviour of `stress_cpu` is independent of its
`duration` argument: for any two duration values and the same environment,
core count and intensity, `stress_cpu` produces the same tracked state and
the same result (the body of `stress_cpu` never reads `duration`). -/
theorem stress_cpu_duration_independent (env : SpawnEnv)
    (cores intensity d1 d2 : Nat) (s : TesterState) :
    stress_cpu env cores d1 intensity s
      = stress_cpu env cores d2 intensity s := rfl

/-- Claim C2: `cleanup_processes` is idempotent and unconditionally clearing:
for every supervisor state — including states whose handles fail to
terminate or raise exceptions — one call leaves both tracked lists empty,
and a second consecutive call performs no actions (in particular raises and
logs no error) and leaves both lists empty again. -/
theorem cleanup_processes_idempotent (s : TesterState) :
    (cleanup_processes s).1.processes = [] ∧
    (cleanup_processes s).1.memory_processes = [] ∧
    cleanup_processes (cleanup_processes s).1 = ((cleanup_processes s).1, []) := by
  refine ⟨rfl, rfl, ?_⟩
  simp [cleanup_processes]

/-- Claim C3: for every tracked handle that is still alive,
`cleanup_processes` first sends a graceful terminate, waits up to 2 time
units, and sends a forceful kill followed by a blocking join only if the
handle is still alive afterwards; handles that are not alive are skipped;
and every handle in the combined tracked list is processed, each one's
effect trace depending only on that handle — so an exception while
terminating one handle cannot prevent the remaining handles from being
processed. -/
theorem cleanup_processes_escalation :
    (∀ p : Proc, p.dyn.alive = true → p.dyn.exnAt = none →
      cleanupOne p = Action.terminate :: Action.joinTimeout2 ::
        (if p.dyn.aliveAfterJoin then [Action.kill, Action.joinBlock]
         else [])) ∧
    (∀ p : Proc, p.dyn.alive = false → cleanupOne p = []) ∧
    (∀ p : Proc, Action.kill ∈ cleanupOne p →
      p.dyn.alive = true ∧ p.dyn.aliveAfterJoin = true) ∧
    (∀ s : TesterState,
      (cleanup_processes s).2.length
          = (s.processes ++ s.memory_processes).length ∧
      ∀ i : Nat, (cleanup_processes s).2[i]?
          = ((s.processes ++ s.memory_processes)[i]?).map cleanupOne) := by
  refine ⟨?_, ?_, ?_, ?_⟩
  · intro p h1 h2
    simp [cleanupOne, h1, h2, attemptedSteps]
  · intro p h
    simp [cleanupOne, h]
  · intro p hmem
    by_cases ha : p.dyn.alive
    · refine ⟨ha, ?_⟩
      rcases hx : p.dyn.exnAt with _ | i <;>
        simp only [cleanupOne, ha, hx, eq_self_iff_true, if_true] at hmem
      · exact kill_mem_attemptedSteps hmem
      · split at hmem
        · rcases List.mem_append.1 hmem with h | h
          · exact kill_mem_attemptedSteps (List.mem_of_mem_take h)
          · simp at h
        · exact kill_mem_attemptedSteps hmem
    · simp [cleanupOne, ha] at hmem
  · intro s
    refine ⟨by simp [cleanup_processes], ?_⟩
    intro i
    simp only [cleanup_processes, List.getElem?_map]

/-- Claim C1: every execution of `run_stress_test` invokes
`cleanup_processes` before returning, on every exit path — normal
completion of the timed loop, `KeyboardInterrupt`, and any other exception
raised during spawning or the monitoring loop: for every environment the
cleanup call is the last event of the execution, occurs exactly once, and
the returned state has both tracked lists cleared. -/
theorem run_stress_test_always_cleans_up (env : RunEnv)
    (cpu_cores duration intensity memory_processes memory_size : Nat)
    (s : TesterState) :
    (run_stress_test env cpu_cores duration intensity memory_processes
        memory_size s).1.processes = [] ∧
    (run_stress_test env cpu_cores duration intensity memory_processes
        memory_size s).1.memory_processes = [] ∧
    (run_stress_test env cpu_cores duration intensity memory_processes
        memory_size s).2.getLast? = some Event.cleanupCall ∧
    (run_stress_test env cpu_cores duration intensity memory_processes
        memory_size s).2.count Event.cleanupCall = 1 := by
  have hb := runBody_no_cleanup env cpu_cores duration intensity
    memory_processes memory_size s
  refine ⟨rfl, rfl, ?_, ?_⟩
  · exact List.getLast?_concat _
  · show (((runBody env cpu_cores duration intensity memory_processes
        memory_size s).2.1
      ++ handlerEvents (runBody env cpu_cores duration intensity
        memory_processes memory_size s).2.2)
      ++ [Event.cleanupCall]).count Event.cleanupCall = 1
    rw [List.count_append, List.count_append,
      List.count_eq_zero.2 hb,
      List.count_eq_zero.2 (handlerEvents_no_cleanup _)]
    simp

/-- Closed witness for C3: a live handle that survives terminate+join gets
the full escalation; a dead handle is skipped; each handle of a two-element
tracked list gets its own trace even though the first one raises. -/
theorem cleanup_processes_escalation_witness :
    cleanupOne ⟨Workload.cpuBurn, 1, ⟨true, true, none⟩⟩
      = [Action.terminate, Action.joinTimeout2, Action.kill,
         Action.joinBlock] ∧
    cleanupOne ⟨Workload.cpuBurn, 1, ⟨false, false, none⟩⟩ = [] ∧
    (cleanup_processes
        ⟨[⟨Workload.cpuBurn, 1, ⟨true, true, some 0⟩⟩],
         [⟨Workload.memoryBurn, 5, ⟨true, false, none⟩⟩], true⟩).2[1]?
      = some (cleanupOne ⟨Workload.memoryBurn, 5, ⟨true, false, none⟩⟩) := by
  refine ⟨?_, cleanup_processes_escalation.2.1 _ rfl, ?_⟩
  · have h := cleanup_processes_escalation.1
      ⟨Workload.cpuBurn, 1, ⟨true, true, none⟩⟩ rfl rfl
    simpa using h
  · have h := (cleanup_processes_escalation.2.2.2
      ⟨[⟨Workload.cpuBurn, 1, ⟨true, true, some 0⟩⟩],
       [⟨Workload.memoryBurn, 5, ⟨true, false, none⟩⟩], true⟩).2 1
    simpa using h

/-- Claim C5: `validate_args` raises a `ValueError` exactly when
`cores <= 0`, or `time <= 0`, or `intensity <= 0`, or
`memory_processes < 0`, or `memory_size <= 0`; in particular it rejects
`cores=0`, `time=-1`, `intensity=0`, `memory_processes=-1` and
`memory_size=0` (each with the other fields valid), and accepts
`cores=1, time=1, intensity=1, memory_processes=0, memory_size=1`. -/
theorem validate_args_spec :
    (∀ a : Args, (∃ msg, validate_args a = Except.error msg) ↔
      (a.cores ≤ 0 ∨ a.time ≤ 0 ∨ a.intensity ≤ 0 ∨
        a.memory_processes < 0 ∨ a.memory_size ≤ 0)) ∧
    validate_args ⟨0, 1, 1, 0, 1, false⟩
      = Except.error "Number of cores must be positive" ∧
    validate_args ⟨1, -1, 1, 0, 1, false⟩
      = Except.error "Duration must be positive" ∧
    validate_args ⟨1, 1, 0, 0, 1, false⟩
      = Except.error "Intensity must be positive" ∧
    validate_args ⟨1, 1, 1, -1, 1, false⟩
      = Except.error "Memory processes cannot be negative" ∧
    validate_args ⟨1, 1, 1, 0, 0, false⟩
      = Except.error "Memory size must be positive" ∧
    validate_args ⟨1, 1, 1, 0, 1, false⟩ = Except.ok () := by
  refine ⟨?_, rfl, rfl, rfl, rfl, rfl, rfl⟩
  intro a
  unfold validate_args
  split_ifs <;> simp_all

/-- Claim C6: in `memory_burn`, for every `size_mb > 0` the number of
retained chunks at the end of every outer cycle never exceeds
`2 * size_mb`, because whenever the chunk count exceeds `2 * size_mb`
after the allocation phase, the oldest `size_mb` chunks are discarded
before the next cycle begins. -/
theorem memory_burn_bounded (size_mb : Nat) (hpos : 0 < size_mb) :
    (∀ k, (memory_burn_run size_mb k).1.length ≤ 2 * size_mb) ∧
    (∀ st : List Nat × Nat,
      (st.1 ++ List.range' st.2 size_mb).length > size_mb * 2 →
      (memory_burn_cycle size_mb st).1
        = (st.1 ++ List.range' st.2 size_mb).drop size_mb) := by
  constructor
  · intro k
    induction k with
    | zero => simp [memory_burn_run]
    | succ k ih => exact memory_burn_cycle_length size_mb _ ih
  · intro st h
    simp only [memory_burn_cycle, if_pos h]

/-- Closed witness for C6: with `size_mb = 3`, after 7 cycles the retained
chunk count is within the bound, and a cycle starting from 6 retained
chunks discards the oldest 3 after allocating 3 more. -/
theorem memory_burn_bounded_witness :
    0 < 3 ∧ (memory_burn_run 3 7).1.length ≤ 2 * 3 ∧
    (memory_burn_cycle 3 ([0, 1, 2, 3, 4, 5], 6)).1
      = (([0, 1, 2, 3, 4, 5] : List Nat) ++ List.range' 6 3).drop 3 := by
  refine ⟨by decide, (memory_burn_bounded 3 (by decide)).1 7,
    (memory_burn_bounded 3 (by decide)).2 ([0, 1, 2, 3, 4, 5], 6)
      (by decide)⟩

/-- Claim C7: for every usage percentage in `[0, 100]`, the dashboard bar
consists of exactly `floor(usage / 5)` filled segments followed by empty
segments for a total of 20 segments (so the filled count lies in
`[0, 20]`); for `usage = 0` the bar is all empty, for `usage = 100` all 20
segments are filled, and for `usage = 45` exactly 9 segments are
filled. -/
theorem dashboard_bar_spec :
    (∀ usage : ℚ, 0 ≤ usage → usage ≤ 100 →
      (dashboard_bar usage).length = 20 ∧
      dashboard_bar usage
        = List.replicate (Int.floor (usage / 5)).toNat Seg.filled
          ++ List.replicate (20 - (Int.floor (usage / 5)).toNat)
              Seg.emptySeg ∧
      (dashboard_bar usage).count Seg.filled
        = (Int.floor (usage / 5)).toNat) ∧
    dashboard_bar 0 = List.replicate 20 Seg.emptySeg ∧
    dashboard_bar 100 = List.replicate 20 Seg.filled ∧
    (dashboard_bar 45).count Seg.filled = 9 := by
  have key : ∀ usage : ℚ, 0 ≤ usage → usage ≤ 100 →
      (dashboard_bar usage).length = 20 ∧
      dashboard_bar usage
        = List.replicate (Int.floor (usage / 5)).toNat Seg.filled
          ++ List.replicate (20 - (Int.floor (usage / 5)).toNat)
              Seg.emptySeg ∧
      (dashboard_bar usage).count Seg.filled
        = (Int.floor (usage / 5)).toNat := by
    intro usage h0 h100
    have hq0 : (0 : ℚ) ≤ usage / 5 := by positivity
    have hpy : pyInt (usage / 5) = Int.floor (usage / 5) := by
      rw [pyInt, if_neg (not_lt.2 hq0)]
    have hf0 : (0 : Int) ≤ Int.floor (usage / 5) := Int.floor_nonneg.2 hq0
    have hf20 : Int.floor (usage / 5) ≤ 20 := by
      have h20 : usage / 5 < 21 := by linarith
      exact Int.floor_le_iff.2 (by push_cast; linarith)
    refine ⟨?_, ?_, ?_⟩
    · simp only [dashboard_bar, hpy, List.length_append,
        List.length_replicate]
      omega
    · simp only [dashboard_bar, hpy]
      congr 1
      congr 1
      omega
    · simp only [dashboard_bar, hpy, List.count_append,
        List.count_replicate]
      norm_num
      exact fun h => absurd h (by decide)
  refine ⟨key, ?_, ?_, ?_⟩
  · have h := (key 0 (by norm_num) (by norm_num)).2.1
    norm_num at h
    simpa using h
  · have h := (key 100 (by norm_num) (by norm_num)).2.1
    norm_num at h
    simpa using h
  · have h := (key 45 (by norm_num) (by norm_num)).2.2
    norm_num at h
    simpa using h

/-- Closed witness for C7: a bar for usage 45 has 20 segments. -/
theorem dashboard_bar_spec_witness :
    (0 : ℚ) ≤ 45 ∧ (45 : ℚ) ≤ 100 ∧ (dashboard_bar 45).length = 20 :=
  ⟨by norm_num, by norm_num,
    (dashboard_bar_spec.1 45 (by norm_num) (by norm_num)).1⟩

/-- Claim C9: if the `k`-th (0-based) of `N` requested worker `start()`
calls fails in `stress_cpu` or `stress_memory`, the exception is re-raised
to the caller and the tracked list then contains exactly the `k` workers
that were successfully started before it (the failed spawn is never
appended) while the other tracked list is untouched — so a subsequent
`cleanup_processes` processes precisely the workers that actually
started. -/
theorem stress_spawn_failure_partial :
    (∀ (env : SpawnEnv) (cores duration intensity k : Nat)
        (s : TesterState), env.cpuFailAt = some k → k < cores →
      (stress_cpu env cores duration intensity s).2 = Except.error () ∧
      (stress_cpu env cores duration intensity s).1.processes
        = s.processes ++ (List.range k).map
            (fun j => ⟨Workload.cpuBurn, intensity, env.cpuDyn j⟩) ∧
      (stress_cpu env cores duration intensity s).1.memory_processes
        = s.memory_processes ∧
      (cleanup_processes (stress_cpu env cores duration intensity s).1).2
        = ((s.processes ++ (List.range k).map
            (fun j => (⟨Workload.cpuBurn, intensity, env.cpuDyn j⟩ : Proc)))
            ++ s.memory_processes).map cleanupOne) ∧
    (∀ (env : SpawnEnv) (nproc size_mb k : Nat) (s : TesterState),
        env.memFailAt = some k → k < nproc →
      (stress_memory env nproc size_mb s).2 = Except.error () ∧
      (stress_memory env nproc size_mb s).1.memory_processes
        = s.memory_processes ++ (List.range k).map
            (fun j => ⟨Workload.memoryBurn, size_mb, env.memDyn j⟩) ∧
      (stress_memory env nproc size_mb s).1.processes = s.processes) := by
  constructor
  · intro env cores duration intensity k s hk hlt
    have hsp := spawnLoop_some
      (fun j => (⟨Workload.cpuBurn, intensity, env.cpuDyn j⟩ : Proc))
      k cores 0
    rw [if_pos ⟨Nat.zero_le k, by omega⟩] at hsp
    simp only [Nat.sub_zero] at hsp
    refine ⟨?_, ?_, ?_, ?_⟩ <;>
      simp [stress_cpu, hk, hsp, List.range_eq_range', cleanup_processes]
  · intro env nproc size_mb k s hk hlt
    have hsp := spawnLoop_some
      (fun j => (⟨Workload.memoryBurn, size_mb, env.memDyn j⟩ : Proc))
      k nproc 0
    rw [if_pos ⟨Nat.zero_le k, by omega⟩] at hsp
    simp only [Nat.sub_zero] at hsp
    refine ⟨?_, ?_, ?_⟩ <;>
      simp [stress_memory, hk, hsp, List.range_eq_range']

/-- Closed witness for C9: with 3 CPU workers requested and the second
`start()` failing, exactly the first worker stays tracked and the call
reports the error; with 2 memory workers requested and the first `start()`
failing, no memory worker is tracked. -/
theorem stress_spawn_failure_partial_witness :
    (stress_cpu ⟨some 1, some 0, fun _ => ⟨true, true, none⟩,
        fun _ => ⟨true, false, none⟩⟩ 3 7 2 initTester).2
      = Except.error () ∧
    (stress_cpu ⟨some 1, some 0, fun _ => ⟨true, true, none⟩,
        fun _ => ⟨true, false, none⟩⟩ 3 7 2 initTester).1.processes
      = [⟨Workload.cpuBurn, 2, ⟨true, true, none⟩⟩] ∧
    (stress_memory ⟨some 1, some 0, fun _ => ⟨true, true, none⟩,
        fun _ => ⟨true, false, none⟩⟩ 2 64 initTester).2
      = Except.error () ∧
    (stress_memory ⟨some 1, some 0, fun _ => ⟨true, true, none⟩,
        fun _ => ⟨true, false, none⟩⟩ 2 64 initTester).1.memory_processes
      = [] := by
  have hc := stress_spawn_failure_partial.1
    ⟨some 1, some 0, fun _ => ⟨true, true, none⟩,
      fun _ => ⟨true, false, none⟩⟩ 3 7 2 1 initTester rfl (by decide)
  have hm := stress_spawn_failure_partial.2
    ⟨some 1, some 0, fun _ => ⟨true, true, none⟩,
      fun _ => ⟨true, false, none⟩⟩ 2 64 0 initTester rfl (by decide)
  refine ⟨hc.1, ?_, hm.1, ?_⟩
  · rw [hc.2.1]
    decide
  · rw [hm.2.1]
    decide

/-- Claim C8: in legacy `--cpu-only` mode (with validation passed and the
spawn succeeding), `cleanup_processes` is reached exactly when the polling
loop exits normally; if any exception is raised inside the legacy polling
loop, the program terminates — with exit code 0 for `KeyboardInterrupt`
and 1 otherwise — without invoking `cleanup_processes` on that path. -/
theorem legacy_mode_cleanup_iff (env : MainEnv) (a : Args)
    (hcpu : a.cpu_only = true) (hv : validate_args a = Except.ok ())
    (hspawn : (stress_cpu env.runEnv.spawn a.cores.toNat a.time.toNat
        a.intensity.toNat initTester).2 = Except.ok ()) :
    (Event.cleanupCall ∈ (mainProgram env a).2 ↔
      env.legacyLoopExn = none) ∧
    (∀ k, env.legacyLoopExn = some k →
      Event.cleanupCall ∉ (mainProgram env a).2 ∧
      (mainProgram env a).1
        = (match k with
           | ExnKind.keyboardInterrupt => 0
           | ExnKind.otherExn => 1)) := by
  unfold mainProgram
  simp only [hv, hcpu, if_true, hspawn]
  rcases hl : env.legacyLoopExn with _ | k
  · simp [List.mem_replicate]
  · cases k <;> simp [List.mem_replicate]

/-- Closed witness for C8: a legacy run whose polling loop raises a
non-interrupt exception after two ticks never calls cleanup and exits 1. -/
theorem legacy_mode_cleanup_iff_witness :
    Event.cleanupCall ∉
      (mainProgram
        ⟨⟨⟨none, none, fun _ => ⟨true, true, none⟩,
            fun _ => ⟨true, true, none⟩⟩, LoopExit.completed, 0⟩,
          some ExnKind.otherExn, 2⟩
        ⟨2, 5, 1, 0, 100, true⟩).2 ∧
    (mainProgram
        ⟨⟨⟨none, none, fun _ => ⟨true, true, none⟩,
            fun _ => ⟨true, true, none⟩⟩, LoopExit.completed, 0⟩,
          some ExnKind.otherExn, 2⟩
        ⟨2, 5, 1, 0, 100, true⟩).1 = 1 := by
  have h := (legacy_mode_cleanup_iff
    ⟨⟨⟨none, none, fun _ => ⟨true, true, none⟩,
        fun _ => ⟨true, true, none⟩⟩, LoopExit.completed, 0⟩,
      some ExnKind.otherExn, 2⟩
    ⟨2, 5, 1, 0, 100, true⟩ rfl rfl ?hs).2 ExnKind.otherExn rfl
  case hs => rfl
  exact h

/-- Environment exhibiting the C4 counterexample: the very first CPU
worker `start()` call fails (a `SpawnError`) and no legacy-loop exception
is scheduled. -/
def spawnFailMainEnv : MainEnv :=
  ⟨⟨⟨some 0, none, fun _ => ⟨true, true, none⟩,
      fun _ => ⟨true, true, none⟩⟩, LoopExit.completed, 0⟩, none, 0⟩

/-- Valid dashboard-mode (non-legacy) command-line arguments. -/
def dashboardArgs : Args := ⟨2, 5, 1, 0, 100, false⟩

/-- Counterexample to claim C4 as stated: with valid dashboard-mode
arguments and an environment in which process creation fails during
`run_stress_test` (a `SpawnError` — the error handler runs, as witnessed
by the error message in the trace), the program exits with code 0, not 1,
because `run_stress_test` catches the exception internally and `__main__`
falls off the end of the script. -/
theorem main_spawn_failure_exit_zero :
    validate_args dashboardArgs = Except.ok () ∧
    dashboardArgs.cpu_only = false ∧
    (stress_cpu spawnFailMainEnv.runEnv.spawn dashboardArgs.cores.toNat
        dashboardArgs.time.toNat dashboardArgs.intensity.toNat
        initTester).2 = Except.error () ∧
    Event.msgError ∈ (mainProgram spawnFailMainEnv dashboardArgs).2 ∧
    (mainProgram spawnFailMainEnv dashboardArgs).1 = 0 := by
  refine ⟨rfl, rfl, rfl, ?_, rfl⟩
  decide

/-- Claim C4 (amended): the exit code is 0 on normal completion and on
user interrupt, and 1 whenever validation rejects the CLI arguments; an
exception reaching the top level — possible only in legacy `--cpu-only`
mode, such as a spawn failure or a non-interrupt exception in the legacy
polling loop — also exits 1; but in dashboard mode every exception during
the run, including a `SpawnError`, is caught inside `run_stress_test`, so
the program exits 0. -/
theorem main_exit_codes (env : MainEnv) (a : Args) :
    (∀ msg, validate_args a = Except.error msg →
      (mainProgram env a).1 = 1) ∧
    (validate_args a = Except.ok () → a.cpu_only = false →
      (mainProgram env a).1 = 0) ∧
    (validate_args a = Except.ok () → a.cpu_only = true →
      (stress_cpu env.runEnv.spawn a.cores.toNat a.time.toNat
          a.intensity.toNat initTester).2 = Except.error () →
      (mainProgram env a).1 = 1) ∧
    (validate_args a = Except.ok () → a.cpu_only = true →
      (stress_cpu env.runEnv.spawn a.cores.toNat a.time.toNat
          a.intensity.toNat initTester).2 = Except.ok () →
      (mainProgram env a).1
        = (match env.legacyLoopExn with
           | some ExnKind.otherExn => 1
           | _ => 0)) := by
  refine ⟨?_, ?_, ?_, ?_⟩
  · intro msg hv
    simp [mainProgram, hv]
  · intro hv hcpu
    simp [mainProgram, hv, hcpu]
  · intro hv hcpu hsp
    simp [mainProgram, hv, hcpu, hsp]
  · intro hv hcpu hsp
    unfold mainProgram
    simp only [hv, hcpu, if_true, hsp]
    rcases hl : env.legacyLoopExn with _ | k
    · simp
    · cases k <;> simp

/-- Closed witness for the amended C4: rejected arguments exit 1; a valid
dashboard run exits 0 even when its spawn fails; a legacy run whose spawn
fails exits 1. -/
theorem main_exit_codes_witness :
    (mainProgram spawnFailMainEnv ⟨0, 5, 1, 0, 100, false⟩).1 = 1 ∧
    (mainProgram spawnFailMainEnv dashboardArgs).1 = 0 ∧
    (mainProgram spawnFailMainEnv ⟨2, 5, 1, 0, 100, true⟩).1 = 1 :=
  ⟨(main_exit_codes spawnFailMainEnv ⟨0, 5, 1, 0, 100, false⟩).1
      "Number of cores must be positive" rfl,
    (main_exit_codes spawnFailMainEnv dashboardArgs).2.1 rfl rfl,
    (main_exit_codes spawnFailMainEnv ⟨2, 5, 1, 0, 100, true⟩).2.2.1
      rfl rfl rfl⟩

end CpuStress
